import Mathlib

/-!
Verification of the CarPal backend (src/backend/app.js) against its
specification.  The Express handlers are shallowly embedded as pure
state-transformer functions; the MySQL tables and the upload directory
are explicit lists, the external Gemini call is an `Except` parameter,
and the JavaScript JSON functions are modelled by an executable strict
JSON parser and serializer below.
-/

namespace CarPal

/-- JSON values, as handled by the JavaScript JSON functions.
Number literals are modelled over the integers; fractional and exponent
literal forms (JavaScript floats) are outside the scope of this
development, as are duplicate object keys. -/
inductive Json where
  | null : Json
  | bool (b : Bool) : Json
  | num (n : Int) : Json
  | str (s : String) : Json
  | arr (items : List Json) : Json
  | obj (pairs : List (String × Json)) : Json
deriving Repr

/-- Whitespace accepted between JSON tokens (RFC 8259, as in JSON.parse). -/
def isJsonWs (c : Char) : Bool :=
  c = ' ' || c = '\t' || c = '\n' || c = '\r'

/-- The JavaScript whitespace class used by String.trim and the regex
class \s (restricted to its ASCII part). -/
def isJsWs (c : Char) : Bool :=
  c = ' ' || c = '\t' || c = '\n' || c = '\r' || c = '\x0b' || c = '\x0c'

/-- JavaScript String.prototype.trim. -/
def jsTrim (s : String) : String :=
  String.mk (((s.data.dropWhile isJsWs).reverse.dropWhile isJsWs).reverse)

/-- Lowercase hexadecimal digit, for JSON.stringify control escapes. -/
def hexDigit (n : Nat) : Char :=
  if n < 10 then Char.ofNat (48 + n) else Char.ofNat (87 + n)

/-- How JSON.stringify escapes a single character inside a string. -/
def escapeChar (c : Char) : List Char :=
  if c = '"' then ['\\', '"']
  else if c = '\\' then ['\\', '\\']
  else if c = '\x08' then ['\\', 'b']
  else if c = '\x0c' then ['\\', 'f']
  else if c = '\n' then ['\\', 'n']
  else if c = '\r' then ['\\', 'r']
  else if c = '\t' then ['\\', 't']
  else if c.toNat < 32 then
    ['\\', 'u', '0', '0', hexDigit (c.toNat / 16), hexDigit (c.toNat % 16)]
  else [c]

/-- JSON.stringify of a string value (quotes plus escapes). -/
def escapeString (s : String) : String :=
  String.mk ('"' :: s.data.foldr (fun c acc => escapeChar c ++ acc) ['"'])

mutual

/-- JSON.stringify (no indentation argument, as called in app.js). -/
def stringifyVal : Json → String
  | .null => "null"
  | .bool true => "true"
  | .bool false => "false"
  | .num n => toString n
  | .str s => escapeString s
  | .arr xs => "[" ++ stringifyItems xs ++ "]"
  | .obj ms => "\x7b" ++ stringifyPairs ms ++ "\x7d"

/-- Comma-separated serialization of array elements. -/
def stringifyItems : List Json → String
  | [] => ""
  | [x] => stringifyVal x
  | x :: xs => stringifyVal x ++ "," ++ stringifyItems xs

/-- Comma-separated serialization of object members, insertion order. -/
def stringifyPairs : List (String × Json) → String
  | [] => ""
  | [(k, v)] => escapeString k ++ ":" ++ stringifyVal v
  | (k, v) :: ms => escapeString k ++ ":" ++ stringifyVal v ++ "," ++ stringifyPairs ms

end

/-- Value of one hexadecimal digit, if any. -/
def hexDigitVal (c : Char) : Option Nat :=
  if 48 ≤ c.toNat ∧ c.toNat ≤ 57 then some (c.toNat - 48)
  else if 97 ≤ c.toNat ∧ c.toNat ≤ 102 then some (c.toNat - 87)
  else if 65 ≤ c.toNat ∧ c.toNat ≤ 70 then some (c.toNat - 55)
  else none

/-- Decode a single-character string escape (after the backslash). -/
def escDecode (c : Char) : Option Char :=
  if c = '"' then some '"'
  else if c = '\\' then some '\\'
  else if c = '/' then some '/'
  else if c = 'b' then some '\x08'
  else if c = 'f' then some '\x0c'
  else if c = 'n' then some '\n'
  else if c = 'r' then some '\r'
  else if c = 't' then some '\t'
  else none

/-- Parse the body of a JSON string after the opening quote; returns the
decoded characters and the input after the closing quote.  Control
characters must be escaped, as in strict JSON. -/
def parseStringChars : Nat → List Char → Option (List Char × List Char)
  | 0, _ => none
  | _, [] => none
  | fuel + 1, c :: cs =>
    if c = '"' then some ([], cs)
    else if c = '\\' then
      match cs with
      | 'u' :: h1 :: h2 :: h3 :: h4 :: rest =>
        match hexDigitVal h1, hexDigitVal h2, hexDigitVal h3, hexDigitVal h4 with
        | some a, some b, some c2, some d =>
          match parseStringChars fuel rest with
          | some (chars, rest2) =>
            some (Char.ofNat (((a * 16 + b) * 16 + c2) * 16 + d) :: chars, rest2)
          | none => none
        | _, _, _, _ => none
      | e :: rest =>
        match escDecode e with
        | some c2 =>
          match parseStringChars fuel rest with
          | some (chars, rest2) => some (c2 :: chars, rest2)
          | none => none
        | none => none
      | [] => none
    else if c.toNat < 32 then none
    else
      match parseStringChars fuel cs with
      | some (chars, rest2) => some (c :: chars, rest2)
      | none => none

/-- Digits of a decimal literal folded to a natural number. -/
def digitsToNat (ds : List Char) : Nat :=
  ds.foldl (fun acc c => acc * 10 + (c.toNat - 48)) 0

/-- Is this character an ASCII decimal digit? -/
def isDigitChar (c : Char) : Bool :=
  48 ≤ c.toNat && c.toNat ≤ 57

/-- Parse a JSON integer literal (optional minus, digits).  A literal
continuing with a fraction or exponent makes the surrounding parse fail,
conservatively narrowing JSON.parse to integer numbers. -/
def parseIntDigits (neg : Bool) (cs1 : List Char) : Option (Json × List Char) :=
  match cs1 with
  | [] => none
  | c :: rest0 =>
    if c = '0' then some (Json.num 0, rest0)
    else if isDigitChar c then
      let ds := cs1.takeWhile isDigitChar
      let rest := cs1.dropWhile isDigitChar
      let n : Int := Int.ofNat (digitsToNat ds)
      some (Json.num (if neg then -n else n), rest)
    else none

/-- Dispatch on the optional leading minus of an integer literal. -/
def parseNumber : List Char → Option (Json × List Char)
  | '-' :: cs1 => parseIntDigits true cs1
  | cs => parseIntDigits false cs

mutual

/-- Parse one JSON value (fuel-indexed recursion). -/
def parseValue : Nat → List Char → Option (Json × List Char)
  | 0, _ => none
  | fuel + 1, cs =>
    let cs := cs.dropWhile isJsonWs
    match cs with
    | 'n' :: 'u' :: 'l' :: 'l' :: rest => some (.null, rest)
    | 't' :: 'r' :: 'u' :: 'e' :: rest => some (.bool true, rest)
    | 'f' :: 'a' :: 'l' :: 's' :: 'e' :: rest => some (.bool false, rest)
    | '"' :: rest =>
      match parseStringChars (rest.length + 1) rest with
      | some (chars, rest2) => some (.str (String.mk chars), rest2)
      | none => none
    | '[' :: rest =>
      match (rest.dropWhile isJsonWs) with
      | ']' :: rest2 => some (.arr [], rest2)
      | _ =>
        match parseItems fuel rest with
        | some (vs, rest2) => some (.arr vs, rest2)
        | none => none
    | '\x7b' :: rest =>
      match (rest.dropWhile isJsonWs) with
      | '\x7d' :: rest2 => some (.obj [], rest2)
      | _ =>
        match parsePairs fuel rest with
        | some (ms, rest2) => some (.obj ms, rest2)
        | none => none
    | other => parseNumber other

/-- Parse the elements of a nonempty JSON array up to the closing bracket. -/
def parseItems : Nat → List Char → Option (List Json × List Char)
  | 0, _ => none
  | fuel + 1, cs =>
    match parseValue fuel cs with
    | none => none
    | some (v, rest) =>
      match rest.dropWhile isJsonWs with
      | ',' :: rest2 =>
        match parseItems fuel rest2 with
        | some (vs, rest3) => some (v :: vs, rest3)
        | none => none
      | ']' :: rest2 => some ([v], rest2)
      | _ => none

/-- Parse the members of a nonempty JSON object up to the closing brace. -/
def parsePairs : Nat → List Char → Option (List (String × Json) × List Char)
  | 0, _ => none
  | fuel + 1, cs =>
    match cs.dropWhile isJsonWs with
    | '"' :: rest =>
      match parseStringChars (rest.length + 1) rest with
      | none => none
      | some (key, rest2) =>
        match rest2.dropWhile isJsonWs with
        | ':' :: rest3 =>
          match parseValue fuel rest3 with
          | none => none
          | some (v, rest4) =>
            match rest4.dropWhile isJsonWs with
            | ',' :: rest5 =>
              match parsePairs fuel rest5 with
              | some (ms, rest6) => some ((String.mk key, v) :: ms, rest6)
              | none => none
            | '\x7d' :: rest5 => some ([(String.mk key, v)], rest5)
            | _ => none
        | _ => none
    | _ => none

end

/-- JSON.parse: parse one value and require only whitespace to remain.
Returns none exactly where JSON.parse would throw. -/
def parseJson (s : String) : Option Json :=
  match parseValue (s.length + 1) s.data with
  | some (j, rest) => if (rest.dropWhile isJsonWs).isEmpty then some j else none
  | none => none

/-- First-occurrence substring split: some (pre, post) with the scanned
list equal to pre ++ pat ++ post and pre shortest; none if pat is absent. -/
def findSub (pat : List Char) : List Char → Option (List Char × List Char)
  | [] => if pat.isEmpty then some ([], []) else none
  | c :: cs =>
    if pat.isPrefixOf (c :: cs) then some ([], (c :: cs).drop pat.length)
    else
      match findSub pat cs with
      | some (pre, post) => some (c :: pre, post)
      | none => none

/-- Strip trailing JavaScript whitespace. -/
def dropTrailingWs (cs : List Char) : List Char :=
  (cs.reverse.dropWhile isJsWs).reverse

/-- The opening code-fence marker of the cleanup regex in the upload
handler. -/
def fenceOpen : List Char := "\x60\x60\x60json".data

/-- The closing code-fence marker. -/
def fenceClose : List Char := "\x60\x60\x60".data

/-- The cleanup applied to the Gemini response text (app.js line 168):
one replacement of the first fenced block by its capture, then trim.
The regex anchors at the first opening marker, greedily consumes the
whitespace after it, and the non-greedy capture ends at the first
closing marker, excluding the whitespace just before it.  When the
pattern does not match, replace leaves the string unchanged. -/
def stripCodeFence (s : String) : String :=
  match findSub fenceOpen s.data with
  | none => jsTrim s
  | some (pre, rest) =>
    let r1 := rest.dropWhile isJsWs
    match findSub fenceClose r1 with
    | none => jsTrim s
    | some (inner, post) =>
      jsTrim (String.mk (pre ++ dropTrailingWs inner ++ post))

/-- A row of the users table (schema: id auto-increment, email unique,
password holding the bcrypt digest, created_at). -/
structure UserRow where
  id : Nat
  email : String
  password : String
deriving Repr, DecidableEq

/-- A row of the cars table (schema: id auto-increment, filename, url,
user_id, car_info JSON text, uploaded_at). -/
structure CarRow where
  id : Nat
  filename : String
  url : String
  user_id : Nat
  car_info : String
  uploaded_at : Nat
deriving Repr, DecidableEq

/-- The MySQL database with its auto-increment counters. -/
structure Db where
  users : List UserRow
  nextUserId : Nat
  cars : List CarRow
  nextCarId : Nat
deriving Repr, DecidableEq

/-- Backend state: the database plus the files present under the upload
directory, as paths relative to the backend root. -/
structure Sys where
  db : Db
  files : List String
deriving Repr, DecidableEq

/-- Idealized bcrypt.hash: an injective one-way digest.  Collision
freedom of bcrypt is assumed and the salt-dependent part is fixed. -/
def bcryptHash (password : String) : String :=
  "$2b$10$" ++ password

/-- bcrypt.compare under the same idealization: succeeds exactly when
the candidate hashes to the stored digest. -/
def bcryptCompare (password digest : String) : Bool :=
  digest == bcryptHash password

/-- A signed JWT as produced by jwt.sign in the login handler: the
payload (user id and the username claim, undefined for this schema),
the expiry instant, and the signing secret.  Unforgeability is
idealized: a token value records the secret it was signed with and
verification compares it. -/
structure Jwt where
  id : Nat
  username : Option String
  exp : Nat
  secret : String
deriving Repr, DecidableEq

/-- jwt.sign with expiresIn of one hour. -/
def jwtSign (id : Nat) (username : Option String) (secret : String) (now : Nat) : Jwt :=
  { id := id, username := username, exp := now + 3600, secret := secret }

/-- jwt.verify: signature and expiry check. -/
def jwtVerify (t : Jwt) (secret : String) (now : Nat) : Option Jwt :=
  if t.secret = secret ∧ now < t.exp then some t else none

/-- Outcome of the authenticateToken middleware (app.js lines 46-58). -/
inductive AuthResult where
  | unauthenticated : AuthResult
  | forbidden : AuthResult
  | ok (user : Jwt) : AuthResult
deriving Repr, DecidableEq

/-- HTTP status sent by the middleware on its two failure exits. -/
def AuthResult.code : AuthResult → Option Nat
  | .unauthenticated => some 401
  | .forbidden => some 403
  | .ok _ => none

/-- The authenticateToken middleware.  The argument is the token
extracted from the Authorization header: none when the header is absent
or has no second word after the split on a space. -/
def authenticateToken (tok : Option Jwt) (secret : String) (now : Nat) : AuthResult :=
  match tok with
  | none => .unauthenticated
  | some t =>
    match jwtVerify t secret now with
    | none => .forbidden
    | some u => .ok u

/-- JavaScript falsiness of an optional string field of req.body: the
field is absent (undefined) or is the empty string. -/
def falsyStr : Option String → Bool
  | none => true
  | some s => s == ""

/-- Responses of POST /signup. -/
inductive SignupResp where
  | missingFields : SignupResp
  | duplicate : SignupResp
  | created : SignupResp
deriving Repr, DecidableEq

/-- HTTP status of each signup response. -/
def SignupResp.code : SignupResp → Nat
  | .missingFields => 400
  | .duplicate => 409
  | .created => 201

/-- POST /signup (app.js lines 76-92).  The INSERT against the unique
key on email raises ER_DUP_ENTRY exactly when a row with that email
exists; other database errors are outside the model. -/
def signup (st : Sys) (email password : Option String) : SignupResp × Sys :=
  if falsyStr email || falsyStr password then (.missingFields, st)
  else
    let e := email.getD ""
    let p := password.getD ""
    if st.db.users.any (fun u => u.email == e) then (.duplicate, st)
    else
      let row : UserRow := { id := st.db.nextUserId, email := e, password := bcryptHash p }
      let db1 : Db :=
        { st.db with users := st.db.users ++ [row], nextUserId := st.db.nextUserId + 1 }
      (.created, { st with db := db1 })

/-- Responses of POST /login. -/
inductive LoginResp where
  | missingFields : LoginResp
  | invalidCredentials : LoginResp
  | ok (token : Jwt) : LoginResp
deriving Repr, DecidableEq

/-- HTTP status of each login response. -/
def LoginResp.code : LoginResp → Nat
  | .missingFields => 400
  | .invalidCredentials => 400
  | .ok _ => 200

/-- POST /login (app.js lines 112-132).  The SELECT by email yields its
first matching row; the signed payload carries user.id together with
the username column, absent from this schema (undefined). -/
def login (st : Sys) (email password : Option String) (secret : String) (now : Nat) :
    LoginResp :=
  if falsyStr email || falsyStr password then .missingFields
  else
    let e := email.getD ""
    let p := password.getD ""
    match st.db.users.find? (fun u => u.email == e) with
    | none => .invalidCredentials
    | some u =>
      if bcryptCompare p u.password then .ok (jwtSign u.id none secret now)
      else .invalidCredentials

/-- A multipart file as multer receives it. -/
structure FileUpload where
  originalname : String
deriving Repr, DecidableEq

/-- The name the multer storage engine gives an uploaded file:
Date.now() plus a dash plus the original name. -/
def uploadedName (ts : Nat) (f : FileUpload) : String :=
  toString ts ++ "-" ++ f.originalname

/-- Disk path of a file of one user, relative to the backend root. -/
def carFilePath (uid : Nat) (filename : String) : String :=
  "cars/" ++ toString uid ++ "/" ++ filename

/-- Public URL of an uploaded file as built by the upload handler. -/
def carUrl (uid : Nat) (filename : String) : String :=
  "/cars/" ++ toString uid ++ "/" ++ filename

/-- The fallback payload stored when the Gemini text is not valid JSON:
JSON.stringify of an object wrapping the raw (unstripped) text. -/
def fallbackInfo (raw : String) : String :=
  stringifyVal (Json.obj [("description", Json.str raw)])

/-- Responses of POST /upload. -/
inductive UploadResp where
  | noAuth : UploadResp
  | badToken : UploadResp
  | noFile : UploadResp
  | aiFailed : UploadResp
  | ok (url : String) (carInfo : String) : UploadResp
deriving Repr, DecidableEq

/-- HTTP status of each upload response. -/
def UploadResp.code : UploadResp → Nat
  | .noAuth => 401
  | .badToken => 403
  | .noFile => 400
  | .aiFailed => 500
  | .ok _ _ => 200

/-- The JSON body res.json sends on upload success.  carInfo holds the
JavaScript string carInfoJson, hence serializes as a JSON string. -/
def UploadResp.body : UploadResp → Option Json
  | .ok url carInfo =>
    some (Json.obj [("message", Json.str "Uploaded & analyzed"),
                    ("url", Json.str url),
                    ("carInfo", Json.str carInfo)])
  | _ => none

/-- POST /upload (app.js lines 135-192) with its middleware in route
order: authenticateToken, then the multer disk storage writing the file
under cars/userId/timestamp-originalname, then the handler body.  The
ai argument is the external Gemini call: error is a failure of the call
itself (the catch branch), ok carries the response text. -/
def uploadHandler (st : Sys) (tok : Option Jwt) (secret : String) (now : Nat)
    (file : Option FileUpload) (timestamp : Nat) (ai : Except String String) :
    UploadResp × Sys :=
  match authenticateToken tok secret now with
  | .unauthenticated => (.noAuth, st)
  | .forbidden => (.badToken, st)
  | .ok user =>
    match file with
    | none => (.noFile, st)
    | some f =>
      let filename := uploadedName timestamp f
      let fpath := carFilePath user.id filename
      let st1 : Sys := { st with files := st.files ++ [fpath] }
      match ai with
      | .error _ => (.aiFailed, st1)
      | .ok carInfoTextRaw =>
        let carInfoText := stripCodeFence carInfoTextRaw
        let carInfoJson :=
          match parseJson carInfoText with
          | some j => stringifyVal j
          | none => fallbackInfo carInfoTextRaw
        let url := carUrl user.id filename
        let row : CarRow :=
          { id := st1.db.nextCarId, filename := filename, url := url,
            user_id := user.id, car_info := carInfoJson, uploaded_at := now }
        let db1 : Db :=
          { st1.db with cars := st1.db.cars ++ [row], nextCarId := st1.db.nextCarId + 1 }
        (.ok url carInfoJson, { st1 with db := db1 })

/-- Responses of DELETE /images/:id. -/
inductive DeleteResp where
  | noAuth : DeleteResp
  | badToken : DeleteResp
  | notFound : DeleteResp
  | ok : DeleteResp
deriving Repr, DecidableEq

/-- HTTP status of each delete response. -/
def DeleteResp.code : DeleteResp → Nat
  | .noAuth => 401
  | .badToken => 403
  | .notFound => 404
  | .ok => 200

/-- DELETE /images/:id (app.js lines 195-225).  unlinkFails models the
best-effort fs.unlink callback: its failure is logged and the row is
deleted regardless. -/
def deleteImage (st : Sys) (tok : Option Jwt) (secret : String) (now : Nat)
    (imageId : Nat) (unlinkFails : Bool) : DeleteResp × Sys :=
  match authenticateToken tok secret now with
  | .unauthenticated => (.noAuth, st)
  | .forbidden => (.badToken, st)
  | .ok user =>
    match st.db.cars.filter (fun c => c.id == imageId && c.user_id == user.id) with
    | [] => (.notFound, st)
    | r :: _ =>
      let fpath := carFilePath user.id r.filename
      let files1 := if unlinkFails then st.files else st.files.filter (fun p => p != fpath)
      let cars1 := st.db.cars.filter (fun c => !(c.id == imageId && c.user_id == user.id))
      (.ok, { st with files := files1, db := { st.db with cars := cars1 } })

/-- Responses of GET /images. -/
inductive ListResp where
  | noAuth : ListResp
  | badToken : ListResp
  | ok (rows : List CarRow) : ListResp
deriving Repr, DecidableEq

/-- HTTP status of each list response. -/
def ListResp.code : ListResp → Nat
  | .noAuth => 401
  | .badToken => 403
  | .ok _ => 200

/-- The ordering of ORDER BY uploaded_at DESC: newest first. -/
def newerEq (a b : CarRow) : Prop := b.uploaded_at ≤ a.uploaded_at

instance : DecidableRel newerEq := fun a b => Nat.decLe b.uploaded_at a.uploaded_at

instance : IsTotal CarRow newerEq := ⟨fun a b => le_total b.uploaded_at a.uploaded_at⟩

instance : IsTrans CarRow newerEq := ⟨fun _ _ _ h1 h2 => le_trans h2 h1⟩

/-- GET /images (app.js lines 231-243): the owner's rows ordered
newest-first; ties are in an order the database does not specify,
modelled by a concrete stable sort. -/
def listImages (st : Sys) (tok : Option Jwt) (secret : String) (now : Nat) : ListResp :=
  match authenticateToken tok secret now with
  | .unauthenticated => .noAuth
  | .forbidden => .badToken
  | .ok user =>
    .ok (List.insertionSort newerEq (st.db.cars.filter (fun c => c.user_id == user.id)))

/-! ### Concrete fixtures used in witnesses and counterexamples -/

/-- Signing secret of the concrete instances. -/
def secret0 : String := "test-secret"

/-- A token of user 2, signed at instant 100 (valid until 3700). -/
def tok2 : Jwt := jwtSign 2 none secret0 100

/-- A token of user 2 signed at instant 0, expired by instant 5000. -/
def tokOld : Jwt := jwtSign 2 none secret0 0

/-- A token of user 9, a user with no uploads, signed at instant 100. -/
def tok9 : Jwt := jwtSign 9 none secret0 100

/-- A multipart upload of car.jpg. -/
def fileCar : FileUpload := { originalname := "car.jpg" }

/-- The freshly created backend state. -/
def sysEmpty : Sys :=
  { db := { users := [], nextUserId := 1, cars := [], nextCarId := 1 }, files := [] }

/-- A Gemini response wrapped in a json code fence. -/
def toyotaRaw : String :=
  "\x60\x60\x60json\n\x7b\"make\":\"Toyota\",\"model\":\"Corolla\",\"year\":2020\x7d\n\x60\x60\x60"

/-- The structured payload inside toyotaRaw. -/
def toyotaJson : Json :=
  Json.obj [("make", Json.str "Toyota"), ("model", Json.str "Corolla"),
            ("year", Json.num 2020)]

/-- A stored user row: id 7, email a@b.com, password pw123. -/
def userA : UserRow := { id := 7, email := "a@b.com", password := bcryptHash "pw123" }

/-- State holding just userA. -/
def sysUserA : Sys :=
  { db := { users := [userA], nextUserId := 8, cars := [], nextCarId := 1 }, files := [] }

/-- A car row owned by user 1. -/
def carOfUser1 : CarRow :=
  { id := 4, filename := "7-a.jpg", url := carUrl 1 "7-a.jpg", user_id := 1,
    car_info := "\x7b\x7d", uploaded_at := 10 }

/-- A car row owned by user 2. -/
def carOfUser2 : CarRow :=
  { id := 5, filename := "9-b.jpg", url := carUrl 2 "9-b.jpg", user_id := 2,
    car_info := "\x7b\x7d", uploaded_at := 20 }

/-- Another car row owned by user 2, uploaded earlier. -/
def carOfUser2Old : CarRow :=
  { id := 3, filename := "1-c.jpg", url := carUrl 2 "1-c.jpg", user_id := 2,
    car_info := "\x7b\x7d", uploaded_at := 5 }

/-- State with the three car rows and their backing files. -/
def sysCars : Sys :=
  { db := { users := [], nextUserId := 1,
            cars := [carOfUser1, carOfUser2, carOfUser2Old], nextCarId := 6 },
    files := [carFilePath 1 "7-a.jpg", carFilePath 2 "9-b.jpg", carFilePath 2 "1-c.jpg"] }

/-! ### Helper lemmas -/

/-- The idealized bcrypt digest is injective. -/
theorem bcryptHash_inj {p q : String} (h : bcryptHash p = bcryptHash q) : p = q := by
  have hd := congrArg String.data h
  simp only [bcryptHash, String.data_append] at hd
  have hpq := List.append_cancel_left hd
  cases p
  cases q
  exact congrArg String.mk hpq

/-! ### Claims -/

/-- C1, counterexample: when the external AI call errors, the upload
responds 500 and inserts no car record, but the claim that no uploaded
file remains on disk fails: in this concrete run the file written by
the storage middleware is still on disk afterwards. -/
theorem upload_ai_error_leaves_file_cex :
    (uploadHandler sysEmpty (some tok2) secret0 100 (some fileCar) 999 (.error "quota")).1.code
      = 500 ∧
    (uploadHandler sysEmpty (some tok2) secret0 100 (some fileCar) 999 (.error "quota")).2.db.cars
      = [] ∧
    sysEmpty.files = [] ∧
    (uploadHandler sysEmpty (some tok2) secret0 100 (some fileCar) 999 (.error "quota")).2.files
      = [carFilePath 2 (uploadedName 999 fileCar)] :=
  ⟨rfl, rfl, rfl, rfl⟩

/-- C1, amended: for every upload request where the external AI call
errors, the operation reports HTTP 500 and no car record is inserted,
but the file written by the upload middleware remains on disk. -/
theorem upload_ai_error_orphans_file
    (st : Sys) (tok : Jwt) (secret : String) (now ts : Nat) (f : FileUpload) (e : String)
    (hauth : authenticateToken (some tok) secret now = .ok tok) :
    (uploadHandler st (some tok) secret now (some f) ts (.error e)).1.code = 500 ∧
    (uploadHandler st (some tok) secret now (some f) ts (.error e)).2.db = st.db ∧
    (uploadHandler st (some tok) secret now (some f) ts (.error e)).2.files
      = st.files ++ [carFilePath tok.id (uploadedName ts f)] := by
  refine ⟨?_, ?_, ?_⟩ <;> simp [uploadHandler, hauth, UploadResp.code]

/-- C1, witness for the amended statement at a concrete run. -/
theorem upload_ai_error_orphans_file_witness :
    authenticateToken (some tok2) secret0 100 = .ok tok2 ∧
    ((uploadHandler sysEmpty (some tok2) secret0 100 (some fileCar) 999 (.error "quota")).1.code
        = 500 ∧
      (uploadHandler sysEmpty (some tok2) secret0 100 (some fileCar) 999 (.error "quota")).2.db
        = sysEmpty.db ∧
      (uploadHandler sysEmpty (some tok2) secret0 100 (some fileCar) 999 (.error "quota")).2.files
        = sysEmpty.files ++ [carFilePath tok2.id (uploadedName 999 fileCar)]) :=
  ⟨rfl, upload_ai_error_orphans_file sysEmpty tok2 secret0 100 999 fileCar "quota" rfl⟩

/-- C2: when the AI call succeeds but its text fails the strict JSON
parse, the upload still succeeds with HTTP 200, the file and a car
record are persisted, and the record carries the fallback payload
wrapping the raw response text; the parse failure is not an error. -/
theorem upload_parse_failure_fallback
    (st : Sys) (tok : Jwt) (secret : String) (now ts : Nat) (f : FileUpload) (raw : String)
    (hauth : authenticateToken (some tok) secret now = .ok tok)
    (hparse : parseJson (stripCodeFence raw) = none) :
    (uploadHandler st (some tok) secret now (some f) ts (.ok raw)).1
      = .ok (carUrl tok.id (uploadedName ts f)) (fallbackInfo raw) ∧
    (uploadHandler st (some tok) secret now (some f) ts (.ok raw)).1.code = 200 ∧
    (uploadHandler st (some tok) secret now (some f) ts (.ok raw)).2.files
      = st.files ++ [carFilePath tok.id (uploadedName ts f)] ∧
    (uploadHandler st (some tok) secret now (some f) ts (.ok raw)).2.db.cars
      = st.db.cars ++
        [{ id := st.db.nextCarId, filename := uploadedName ts f,
           url := carUrl tok.id (uploadedName ts f), user_id := tok.id,
           car_info := fallbackInfo raw, uploaded_at := now }] := by
  refine ⟨?_, ?_, ?_, ?_⟩ <;> simp [uploadHandler, hauth, hparse, UploadResp.code]

/-- C2, witness: a concrete non-JSON response text. -/
theorem upload_parse_failure_fallback_witness :
    authenticateToken (some tok2) secret0 100 = .ok tok2 ∧
    parseJson (stripCodeFence "not json at all") = none ∧
    fallbackInfo "not json at all" = "\x7b\"description\":\"not json at all\"\x7d" ∧
    ((uploadHandler sysEmpty (some tok2) secret0 100 (some fileCar) 999 (.ok "not json at all")).1
        = .ok (carUrl tok2.id (uploadedName 999 fileCar)) (fallbackInfo "not json at all") ∧
      (uploadHandler sysEmpty (some tok2) secret0 100 (some fileCar) 999
          (.ok "not json at all")).1.code = 200 ∧
      (uploadHandler sysEmpty (some tok2) secret0 100 (some fileCar) 999
          (.ok "not json at all")).2.files
        = sysEmpty.files ++ [carFilePath tok2.id (uploadedName 999 fileCar)] ∧
      (uploadHandler sysEmpty (some tok2) secret0 100 (some fileCar) 999
          (.ok "not json at all")).2.db.cars
        = sysEmpty.db.cars ++
          [{ id := sysEmpty.db.nextCarId, filename := uploadedName 999 fileCar,
             url := carUrl tok2.id (uploadedName 999 fileCar), user_id := tok2.id,
             car_info := fallbackInfo "not json at all", uploaded_at := 100 }]) :=
  ⟨rfl, rfl, rfl,
    upload_parse_failure_fallback sysEmpty tok2 secret0 100 999 fileCar "not json at all" rfl rfl⟩

/-- C3: the annotation step strips the code fence, attempts the strict
JSON parse, and on success stores the canonicalized JSON text as the
record payload and echoes it in the response. -/
theorem upload_fence_parse_canonical
    (st : Sys) (tok : Jwt) (secret : String) (now ts : Nat) (f : FileUpload)
    (raw : String) (j : Json)
    (hauth : authenticateToken (some tok) secret now = .ok tok)
    (hparse : parseJson (stripCodeFence raw) = some j) :
    (uploadHandler st (some tok) secret now (some f) ts (.ok raw)).1
      = .ok (carUrl tok.id (uploadedName ts f)) (stringifyVal j) ∧
    (uploadHandler st (some tok) secret now (some f) ts (.ok raw)).2.db.cars
      = st.db.cars ++
        [{ id := st.db.nextCarId, filename := uploadedName ts f,
           url := carUrl tok.id (uploadedName ts f), user_id := tok.id,
           car_info := stringifyVal j, uploaded_at := now }] := by
  refine ⟨?_, ?_⟩ <;> simp [uploadHandler, hauth, hparse]

/-- C3, witness: the fenced Toyota response; the stored payload parses
back to the object with make Toyota, model Corolla, year 2020. -/
theorem upload_fence_parse_canonical_witness :
    authenticateToken (some tok2) secret0 100 = .ok tok2 ∧
    parseJson (stripCodeFence toyotaRaw) = some toyotaJson ∧
    parseJson (stringifyVal toyotaJson) = some toyotaJson ∧
    ((uploadHandler sysEmpty (some tok2) secret0 100 (some fileCar) 999 (.ok toyotaRaw)).1
        = .ok (carUrl tok2.id (uploadedName 999 fileCar)) (stringifyVal toyotaJson) ∧
      (uploadHandler sysEmpty (some tok2) secret0 100 (some fileCar) 999 (.ok toyotaRaw)).2.db.cars
        = sysEmpty.db.cars ++
          [{ id := sysEmpty.db.nextCarId, filename := uploadedName 999 fileCar,
             url := carUrl tok2.id (uploadedName 999 fileCar), user_id := tok2.id,
             car_info := stringifyVal toyotaJson, uploaded_at := 100 }]) :=
  ⟨rfl, rfl, rfl,
    upload_fence_parse_canonical sysEmpty tok2 secret0 100 999 fileCar toyotaRaw toyotaJson rfl rfl⟩

/-- C4: a delete request by an authenticated user for a record id that
none of their rows carries — a row of another user or no row at all —
yields 404 and changes neither the database nor the disk; the two cases
are answered identically, so record existence does not leak. -/
theorem delete_not_owned_notFound_frame
    (st : Sys) (tok : Jwt) (secret : String) (now imageId : Nat) (uf : Bool)
    (hauth : authenticateToken (some tok) secret now = .ok tok)
    (hnone : ∀ c ∈ st.db.cars, c.id = imageId → c.user_id ≠ tok.id) :
    deleteImage st (some tok) secret now imageId uf = (.notFound, st) ∧
    DeleteResp.code .notFound = 404 := by
  have hf : st.db.cars.filter (fun c => c.id == imageId && c.user_id == tok.id) = [] := by
    rw [List.filter_eq_nil_iff]
    intro c hc
    simp only [Bool.and_eq_true, beq_iff_eq, not_and]
    exact fun h1 h2 => hnone c hc h1 h2
  refine ⟨?_, rfl⟩
  simp only [deleteImage, hauth, hf]

/-- C4, witness: user 2 asking to delete user 1's record (id 4) and a
nonexistent record (id 99); both answer 404 and leave the state as is. -/
theorem delete_not_owned_notFound_frame_witness :
    authenticateToken (some tok2) secret0 100 = .ok tok2 ∧
    carOfUser1 ∈ sysCars.db.cars ∧ carOfUser1.user_id = 1 ∧ tok2.id = 2 ∧
    deleteImage sysCars (some tok2) secret0 100 4 false = (.notFound, sysCars) ∧
    deleteImage sysCars (some tok2) secret0 100 99 false = (.notFound, sysCars) :=
  ⟨rfl, by decide, rfl, rfl,
    (delete_not_owned_notFound_frame sysCars tok2 secret0 100 4 false rfl
      (by decide)).1,
    (delete_not_owned_notFound_frame sysCars tok2 secret0 100 99 false rfl
      (by decide)).1⟩

/-- C5: an upload request without a valid token is rejected by the
authentication middleware before the storage engine runs: 401 when the
token is missing, 403 when it is invalid or expired, and in both cases
the whole state — in particular the file list — is unchanged, so no
file is written on the rejected path. -/
theorem upload_reject_before_write
    (st : Sys) (secret : String) (now ts : Nat) (file : Option FileUpload)
    (ai : Except String String) :
    (uploadHandler st none secret now file ts ai = (.noAuth, st) ∧
      UploadResp.code .noAuth = 401) ∧
    (∀ t : Jwt, jwtVerify t secret now = none →
      uploadHandler st (some t) secret now file ts ai = (.badToken, st) ∧
      UploadResp.code .badToken = 403) := by
  refine ⟨⟨?_, rfl⟩, fun t ht => ⟨?_, rfl⟩⟩
  · simp only [uploadHandler, authenticateToken]
  · simp only [uploadHandler, authenticateToken, ht]

/-- C5, witness: a missing token and an expired token at instant 5000,
both rejected with the state untouched. -/
theorem upload_reject_before_write_witness :
    jwtVerify tokOld secret0 5000 = none ∧
    (uploadHandler sysEmpty none secret0 5000 (some fileCar) 999 (.ok "x")
        = (.noAuth, sysEmpty) ∧
      UploadResp.code .noAuth = 401) ∧
    (uploadHandler sysEmpty (some tokOld) secret0 5000 (some fileCar) 999 (.ok "x")
        = (.badToken, sysEmpty) ∧
      UploadResp.code .badToken = 403) :=
  ⟨rfl,
    (upload_reject_before_write sysEmpty secret0 5000 999 (some fileCar) (.ok "x")).1,
    (upload_reject_before_write sysEmpty secret0 5000 999 (some fileCar) (.ok "x")).2
      tokOld rfl⟩

/-- C6, counterexample: the empty string is a wrong password for the
stored user (its bcrypt comparison fails), yet login answers with the
missing-fields response, not the bad-credentials one, because the empty
string is falsy in the field check. -/
theorem login_empty_wrong_password_cex :
    bcryptCompare "" userA.password = false ∧
    login sysUserA (some "a@b.com") (some "") secret0 50 = .missingFields ∧
    LoginResp.missingFields ≠ LoginResp.invalidCredentials :=
  ⟨rfl, rfl, by decide⟩

/-- C6, amended: with the correct email and password, login returns a
token whose embedded id equals the stored user id; every nonempty wrong
password gets the bad-credentials response, while an empty-string guess
is caught earlier by the missing-field validation with its own 400. -/
theorem login_token_id_and_wrong_password
    (st : Sys) (u : UserRow) (email pw secret : String) (now : Nat)
    (hemail : email ≠ "") (hpw : pw ≠ "")
    (hfind : st.db.users.find? (fun v => v.email == email) = some u)
    (hhash : u.password = bcryptHash pw) :
    login st (some email) (some pw) secret now = .ok (jwtSign u.id none secret now) ∧
    (jwtSign u.id none secret now).id = u.id ∧
    (∀ wrong : String, wrong ≠ "" → wrong ≠ pw →
      login st (some email) (some wrong) secret now = .invalidCredentials) := by
  have hef : (email == "") = false := beq_eq_false_iff_ne.mpr hemail
  have hpf : (pw == "") = false := beq_eq_false_iff_ne.mpr hpw
  refine ⟨?_, rfl, ?_⟩
  · simp [login, falsyStr, hef, hpf, hfind, bcryptCompare, hhash]
  · intro wrong hw hwp
    have hwf : (wrong == "") = false := beq_eq_false_iff_ne.mpr hw
    have hcmp : bcryptCompare wrong u.password = false := by
      rw [hhash, bcryptCompare, beq_eq_false_iff_ne]
      intro hcontra
      exact hwp (bcryptHash_inj hcontra).symm
    simp [login, falsyStr, hef, hwf, hfind, hcmp]

/-- C6, witness: correct password pw123 yields the token of user 7; the
nonempty wrong password pw124 yields the bad-credentials response. -/
theorem login_token_id_and_wrong_password_witness :
    sysUserA.db.users.find? (fun v => v.email == "a@b.com") = some userA ∧
    userA.password = bcryptHash "pw123" ∧
    login sysUserA (some "a@b.com") (some "pw123") secret0 50
      = .ok (jwtSign userA.id none secret0 50) ∧
    (jwtSign userA.id none secret0 50).id = userA.id ∧
    login sysUserA (some "a@b.com") (some "pw124") secret0 50 = .invalidCredentials :=
  ⟨rfl, rfl,
    (login_token_id_and_wrong_password sysUserA userA "a@b.com" "pw123" secret0 50
      (by decide) (by decide) rfl rfl).1,
    (login_token_id_and_wrong_password sysUserA userA "a@b.com" "pw123" secret0 50
      (by decide) (by decide) rfl rfl).2.1,
    (login_token_id_and_wrong_password sysUserA userA "a@b.com" "pw123" secret0 50
      (by decide) (by decide) rfl rfl).2.2 "pw124" (by decide) (by decide)⟩

/-- C7: signup answers 400 on a missing (falsy) field, 409 on a
duplicate email leaving the user table unchanged — never a second row
for that email — and 201 on success. -/
theorem signup_codes_and_no_duplicate
    (st : Sys) (email password : Option String) :
    ((falsyStr email || falsyStr password) = true →
      signup st email password = (.missingFields, st) ∧
      SignupResp.code .missingFields = 400) ∧
    ((falsyStr email || falsyStr password) = false →
      st.db.users.any (fun u => u.email == email.getD "") = true →
      signup st email password = (.duplicate, st) ∧
      SignupResp.code .duplicate = 409) ∧
    ((falsyStr email || falsyStr password) = false →
      st.db.users.any (fun u => u.email == email.getD "") = false →
      (signup st email password).1 = .created ∧
      SignupResp.code .created = 201) := by
  refine ⟨fun h => ⟨?_, rfl⟩, fun h1 h2 => ⟨?_, rfl⟩, fun h1 h2 => ⟨?_, rfl⟩⟩
  · simp [signup, h]
  · simp [signup, h1, h2]
  · simp [signup, h1, h2]

/-- C7, witness: a missing email, a duplicate email, and a fresh email. -/
theorem signup_codes_and_no_duplicate_witness :
    (falsyStr none || falsyStr (some "x")) = true ∧
    signup sysEmpty none (some "x") = (.missingFields, sysEmpty) ∧
    (falsyStr (some "a@b.com") || falsyStr (some "zzz")) = false ∧
    sysUserA.db.users.any (fun u => u.email == (some "a@b.com").getD "") = true ∧
    signup sysUserA (some "a@b.com") (some "zzz") = (.duplicate, sysUserA) ∧
    (signup sysEmpty (some "b@c.com") (some "pw")).1 = .created :=
  ⟨rfl,
    ((signup_codes_and_no_duplicate sysEmpty none (some "x")).1 rfl).1,
    rfl, rfl,
    ((signup_codes_and_no_duplicate sysUserA (some "a@b.com") (some "zzz")).2.1 rfl rfl).1,
    ((signup_codes_and_no_duplicate sysEmpty (some "b@c.com") (some "pw")).2.2 rfl rfl).1⟩

/-- C8: token verification fails distinctly — a missing token yields
the 401 response, an invalid or expired token the 403 one, and the two
responses differ — while on success the embedded payload is handed to
the downstream handler. -/
theorem authenticateToken_distinct (secret : String) (now : Nat) :
    (authenticateToken none secret now = .unauthenticated ∧
      AuthResult.code .unauthenticated = some 401) ∧
    (∀ t : Jwt, jwtVerify t secret now = none →
      authenticateToken (some t) secret now = .forbidden ∧
      AuthResult.code .forbidden = some 403) ∧
    (∀ t : Jwt, jwtVerify t secret now = some t →
      authenticateToken (some t) secret now = .ok t) ∧
    AuthResult.unauthenticated ≠ AuthResult.forbidden := by
  refine ⟨⟨rfl, rfl⟩, fun t ht => ⟨?_, rfl⟩, fun t ht => ?_, by decide⟩
  · simp [authenticateToken, ht]
  · simp [authenticateToken, ht]

/-- C8, witness: missing token, expired token at instant 5000, and a
valid token at instant 100. -/
theorem authenticateToken_distinct_witness :
    jwtVerify tokOld secret0 5000 = none ∧
    jwtVerify tok2 secret0 100 = some tok2 ∧
    authenticateToken none secret0 5000 = .unauthenticated ∧
    authenticateToken (some tokOld) secret0 5000 = .forbidden ∧
    authenticateToken (some tok2) secret0 100 = .ok tok2 :=
  ⟨rfl, rfl,
    (authenticateToken_distinct secret0 5000).1.1,
    ((authenticateToken_distinct secret0 5000).2.1 tokOld rfl).1,
    (authenticateToken_distinct secret0 100).2.2.1 tok2 rfl⟩

/-- C9: for an authenticated user, listing answers 200 with exactly the
rows owned by that user — a permutation of the owner filter of the cars
table — sorted newest-first by upload time; for an owner filter that is
empty the rows are the empty list, not an error. -/
theorem listImages_owner_rows_sorted
    (st : Sys) (tok : Jwt) (secret : String) (now : Nat)
    (hauth : authenticateToken (some tok) secret now = .ok tok) :
    ∃ rows : List CarRow,
      listImages st (some tok) secret now = .ok rows ∧
      (ListResp.ok rows).code = 200 ∧
      rows.Perm (st.db.cars.filter (fun c => c.user_id == tok.id)) ∧
      List.Sorted newerEq rows ∧
      (st.db.cars.filter (fun c => c.user_id == tok.id) = [] → rows = []) := by
  refine ⟨List.insertionSort newerEq (st.db.cars.filter (fun c => c.user_id == tok.id)),
    ?_, rfl, ?_, ?_, ?_⟩
  · simp only [listImages, hauth]
  · exact List.perm_insertionSort newerEq _
  · exact List.sorted_insertionSort newerEq _
  · intro h
    rw [h]
    rfl

/-- C9, witness: in the three-row state, user 2 receives exactly its two
rows newest-first, and user 9, who has no uploads, the empty list. -/
theorem listImages_owner_rows_sorted_witness :
    (∃ rows : List CarRow,
      listImages sysCars (some tok2) secret0 100 = .ok rows ∧
      (ListResp.ok rows).code = 200 ∧
      rows.Perm (sysCars.db.cars.filter (fun c => c.user_id == tok2.id)) ∧
      List.Sorted newerEq rows ∧
      (sysCars.db.cars.filter (fun c => c.user_id == tok2.id) = [] → rows = [])) ∧
    listImages sysCars (some tok2) secret0 100 = .ok [carOfUser2, carOfUser2Old] ∧
    listImages sysCars (some tok9) secret0 100 = .ok [] :=
  ⟨listImages_owner_rows_sorted sysCars tok2 secret0 100 rfl, rfl, rfl⟩

/-- C10: every successful upload response carries in its carInfo field
the very string stored in the car_info column, as a JSON string member
of the body — double-encoded, not a JSON object. -/
theorem upload_response_carInfo_is_string
    (st : Sys) (tok : Jwt) (secret : String) (now ts : Nat) (f : FileUpload) (raw : String)
    (hauth : authenticateToken (some tok) secret now = .ok tok) :
    ∃ (url c : String) (row : CarRow),
      (uploadHandler st (some tok) secret now (some f) ts (.ok raw)).1 = .ok url c ∧
      ((uploadHandler st (some tok) secret now (some f) ts (.ok raw)).1).body
        = some (Json.obj [("message", Json.str "Uploaded & analyzed"),
                          ("url", Json.str url), ("carInfo", Json.str c)]) ∧
      (uploadHandler st (some tok) secret now (some f) ts (.ok raw)).2.db.cars
        = st.db.cars ++ [row] ∧
      row.car_info = c := by
  cases hp : parseJson (stripCodeFence raw) with
  | some j =>
    refine ⟨carUrl tok.id (uploadedName ts f), stringifyVal j,
      { id := st.db.nextCarId, filename := uploadedName ts f,
        url := carUrl tok.id (uploadedName ts f), user_id := tok.id,
        car_info := stringifyVal j, uploaded_at := now }, ?_, ?_, ?_, rfl⟩
    · simp [uploadHandler, hauth, hp]
    · simp [uploadHandler, hauth, hp, UploadResp.body]
    · simp [uploadHandler, hauth, hp]
  | none =>
    refine ⟨carUrl tok.id (uploadedName ts f), fallbackInfo raw,
      { id := st.db.nextCarId, filename := uploadedName ts f,
        url := carUrl tok.id (uploadedName ts f), user_id := tok.id,
        car_info := fallbackInfo raw, uploaded_at := now }, ?_, ?_, ?_, rfl⟩
    · simp [uploadHandler, hauth, hp]
    · simp [uploadHandler, hauth, hp, UploadResp.body]
    · simp [uploadHandler, hauth, hp]

/-- C10, witness: the Toyota run; the body holds carInfo as a JSON
string whose content parses back to the stored object. -/
theorem upload_response_carInfo_is_string_witness :
    (∃ (url c : String) (row : CarRow),
      (uploadHandler sysEmpty (some tok2) secret0 100 (some fileCar) 999 (.ok toyotaRaw)).1
        = .ok url c ∧
      ((uploadHandler sysEmpty (some tok2) secret0 100 (some fileCar) 999 (.ok toyotaRaw)).1).body
        = some (Json.obj [("message", Json.str "Uploaded & analyzed"),
                          ("url", Json.str url), ("carInfo", Json.str c)]) ∧
      (uploadHandler sysEmpty (some tok2) secret0 100 (some fileCar) 999 (.ok toyotaRaw)).2.db.cars
        = sysEmpty.db.cars ++ [row] ∧
      row.car_info = c) ∧
    ((uploadHandler sysEmpty (some tok2) secret0 100 (some fileCar) 999 (.ok toyotaRaw)).1).body
      = some (Json.obj [("message", Json.str "Uploaded & analyzed"),
                        ("url", Json.str (carUrl 2 (uploadedName 999 fileCar))),
                        ("carInfo", Json.str (stringifyVal toyotaJson))]) ∧
    parseJson (stringifyVal toyotaJson) = some toyotaJson :=
  ⟨upload_response_carInfo_is_string sysEmpty tok2 secret0 100 999 fileCar toyotaRaw rfl,
    rfl, rfl⟩

end CarPal
